import Mathlib

/-!
Verification of the multipart form relay endpoint (`src/b2b-form-submit.js`).

The JavaScript source works on JS strings throughout (the request buffer is
converted with `toString()` before any parsing), so strings are embedded as
`List Char` and every string operation of the source (`split`, `includes`,
regex `match`) is given an executable Lean counterpart with the exact JS
semantics used by the code.
-/

namespace B2BForm

/-- JS strings, embedded as lists of characters. -/
abbrev Str := List Char

/-- Characters of a Lean string literal, used to write JS string literals. -/
def strL (s : String) : Str := s.data

/-- The CRLF line terminator. -/
def crlf : Str := strL "\r\n"

/-- Does `pat` occur at the very start of `s`?  (Occurrence test at one
position, as a JS regex / `String.prototype.split` scanner performs it.) -/
def isPref : Str → Str → Bool
  | [], _ => true
  | _ :: _, [] => false
  | a :: as, b :: bs => a == b && isPref as bs

/-- Does `pat` occur anywhere in `s`?  This is JS `s.includes(pat)` for a
non-empty `pat`. -/
def hasOcc (pat : Str) : Str → Bool
  | [] => false
  | c :: rest => isPref pat (c :: rest) || hasOcc pat rest

/-- No occurrence of `pat` begins strictly inside `xs` when `xs` is followed
by `pat` itself: rules out occurrences straddling the boundary between a
chunk and the delimiter that follows it. -/
def noEarlyHit (pat : Str) : Str → Bool
  | [] => true
  | c :: rest => !isPref pat (c :: rest ++ pat) && noEarlyHit pat rest

/-- Worker for `splitOnL`: `skip` counts delimiter characters still to be
consumed after a delimiter match, `acc` holds the current chunk reversed. -/
def splitAux (sep : Str) : Str → Nat → Str → List Str
  | [], _, acc => [acc.reverse]
  | _ :: rest, skip + 1, acc => splitAux sep rest skip acc
  | c :: rest, 0, acc =>
    if isPref sep (c :: rest) then
      acc.reverse :: splitAux sep rest (sep.length - 1) []
    else
      splitAux sep rest 0 (c :: acc)

/-- JS `s.split(sep)` for a non-empty separator `sep`: cut at the leftmost,
non-overlapping occurrences of `sep`. -/
def splitOnL (sep s : Str) : List Str := splitAux sep s 0 []

/-- JS `s.replace(/pat/g, rep)` for a literal non-empty `pat`. -/
def replaceAll (s pat rep : Str) : Str := List.intercalate rep (splitOnL pat s)

/-- JS `s.match(/pat"([^"]+)"/)` capture: scan left to right for the literal
`pat` (which ends with the opening quote) followed by at least one non-quote
character and a closing quote; return the first such capture. -/
def matchQuoted (pat : Str) : Str → Option Str
  | [] => none
  | c :: rest =>
    if isPref pat (c :: rest) then
      let after := List.drop pat.length (c :: rest)
      let cap := after.takeWhile (fun ch => ch != '"')
      if cap ≠ [] ∧ after.dropWhile (fun ch => ch != '"') ≠ [] then some cap
      else matchQuoted pat rest
    else matchQuoted pat rest

/-- JS `s.match(/Content-Type: ([^\r\n]+)/)`-style capture: scan for the
literal `pat` followed by at least one character that is neither CR nor LF;
the capture is the maximal such run. -/
def matchLine (pat : Str) : Str → Option Str
  | [] => none
  | c :: rest =>
    if isPref pat (c :: rest) then
      let after := List.drop pat.length (c :: rest)
      let cap := after.takeWhile (fun ch => ch != '\r' && ch != '\n')
      if cap ≠ [] then some cap
      else matchLine pat rest
    else matchLine pat rest

/-- UTF-16 code units of a character, as a JS string stores it. -/
def utf16CodeUnits (c : Char) : List Nat :=
  if c.toNat < 65536 then [c.toNat]
  else [55296 + (c.toNat - 65536) / 1024, 56320 + (c.toNat - 65536) % 1024]

/-- Node `Buffer.from(s, 'binary')` (line 29): every UTF-16 code unit of the
string is truncated to its low 8 bits.  Lossy for any character above
U+00FF (the spec's must-reproduce edge case about the fixed text encoding). -/
def latin1Bytes (s : Str) : List Nat :=
  (s.map utf16CodeUnits).flatten.map (fun u => u % 256)

/-- A decoded file part: the `fileData` object of the parser.  Its `data`
holds the bytes of the Node `Buffer` built at line 29. -/
structure FileAttachment where
  name : Str
  data : List Nat
  contentType : Str
deriving DecidableEq

/-- JS object property assignment `fields[k] = v`: overwrite in place, else
append. -/
def setField : List (Str × Str) → Str → Str → List (Str × Str)
  | [], k, v => [(k, v)]
  | (k', v') :: rest, k, v =>
    if k' == k then (k, v) :: rest else (k', v') :: setField rest k v

/-- JS object property read `fields[k]`. -/
def getField (fs : List (Str × Str)) (k : Str) : Option Str :=
  (fs.find? (fun p => p.1 == k)).map (fun p => p.2)

/-- Result of `parseMultipartForm`: `{ fields, file }`. -/
structure DecodedForm where
  fields : List (Str × Str)
  file : Option FileAttachment
deriving DecidableEq

/-- Mutable state of the `parts.forEach` loop of the parser. -/
structure ParseState where
  fields : List (Str × Str)
  fileData : Option FileAttachment
deriving DecidableEq

/-- The `Content-Disposition` token tested with `part.includes(...)`. -/
def cdToken : Str := strL "Content-Disposition"

/-- Literal head of the regex `/name="([^"]+)"/`. -/
def namePat : Str := strL "name=\""

/-- Literal head of the regex `/filename="([^"]+)"/`. -/
def filenamePat : Str := strL "filename=\""

/-- Literal head of the regex `/Content-Type: ([^\r\n]+)/`. -/
def ctPat : Str := strL "Content-Type: "

/-- The blank-line separator `\r\n\r\n` between part headers and body. -/
def blankSep : Str := crlf ++ crlf

/-- Error message of the JS `TypeError` raised when `split` is invoked on
`undefined` (missing header/body separator, or missing content-type). -/
def undefinedSplitError : Str :=
  strL "TypeError: Cannot read properties of undefined (reading split)"

/-- Body of the `parts.forEach` callback (lines 20-42 of the source): a
thrown `TypeError` aborts the whole loop, hence the `Except`. -/
def processPart (st : ParseState) (part : Str) : Except Str ParseState :=
  if hasOcc cdToken part then
    let nameMatch := matchQuoted namePat part
    let filenameMatch := matchQuoted filenamePat part
    match filenameMatch with
    | some filename =>
      let contentTypeMatch := matchLine ctPat part
      match (splitOnL blankSep part)[1]? with
      | none => .error undefinedSplitError
      | some fileContent =>
        let fileBuffer := (splitOnL (strL "\r\n--") fileContent).headD []
        .ok { st with
              fileData := some ⟨filename, latin1Bytes fileBuffer,
                contentTypeMatch.getD (strL "application/octet-stream")⟩ }
    | none =>
      match nameMatch with
      | some nm =>
        match ((splitOnL blankSep part)[1]?).map
            (fun s => (splitOnL crlf s).headD []) with
        | some v => if v = [] then .ok st
                    else .ok { st with fields := setField st.fields nm v }
        | none => .ok st
      | none => .ok st
  else .ok st

/-- Loop over the chunks produced by splitting the body on `--boundary`
(lines 16-44 of the source). -/
def parseParts (parts : List Str) : Except Str DecodedForm :=
  match parts.foldlM processPart ⟨[], none⟩ with
  | .ok st => .ok ⟨st.fields, st.fileData⟩
  | .error e => .error e

/-- An incoming HTTP request, as the handler observes it: method, the
`content-type` header (absent headers are `undefined` in JS), and the raw
body (already a string, since the parser calls `buffer.toString()`). -/
structure Request where
  method : Str
  contentType : Option Str
  body : Str

/-- `parseMultipartForm` (lines 6-51): extract the boundary from the
`content-type` header, split the body on `--boundary`, fold the parts.
A missing `content-type` header throws (`undefined.split`); a header
without `boundary=` yields the JS template-literal string `--undefined`. -/
def parseMultipartForm (req : Request) : Except Str DecodedForm :=
  match req.contentType with
  | none => .error undefinedSplitError
  | some ct =>
    let boundary := ((splitOnL (strL "boundary=") ct)[1]?).getD (strL "undefined")
    parseParts (splitOnL (strL "--" ++ boundary) req.body)

/-- The four environment secrets. -/
structure Env where
  subdomain : Str
  username : Str
  apiKey : Str
  email : Str

/-- JSON body of the upload endpoint's response. -/
structure UploadResponse where
  url : Str
  name : Str
  size : Nat
  content_type : Str
deriving DecidableEq

/-- JSON body of the ticket endpoint's response. -/
structure TicketResponse where
  id : Nat
deriving DecidableEq

/-- Outcomes of the two upstream calls, fixed by the outside world; a
rejected promise (network failure or non-2xx status, axios throws on both)
is an `error` carrying the value of
`error.response?.data?.errors || error.message`. -/
structure World where
  uploadResult : Except Str UploadResponse
  ticketResult : Except Str TicketResponse

/-- JSON values appearing in the handler's responses. -/
inductive JsonValue where
  | str (s : Str)
  | num (n : Nat)
  | bool (b : Bool)
deriving DecidableEq

/-- An HTTP response: status, the headers set via `setHeader` before the
response was sent, and the JSON body (`none` for `res.end()`). -/
structure Response where
  status : Nat
  headers : List (Str × Str)
  body : Option (List (Str × JsonValue))
deriving DecidableEq

/-- The three CORS headers set at lines 66-68. -/
def corsHeaders : List (Str × Str) :=
  [(strL "Access-Control-Allow-Origin", strL "*"),
   (strL "Access-Control-Allow-Methods", strL "POST, OPTIONS"),
   (strL "Access-Control-Allow-Headers", strL "Content-Type")]

/-- JS template-literal interpolation of a possibly-undefined value. -/
def jsStr : Option Str → Str
  | none => strL "undefined"
  | some s => s

/-- JS truthiness of a possibly-undefined string. -/
def jsTruthy : Option Str → Bool
  | none => false
  | some s => s != []

/-- `messageHtml` template literal (lines 118-126). -/
def messageHtml (companyName email organizationType message : Option Str)
    (fileName : Str) : Str :=
  strL "\n      <h3>B2B Form Submission</h3>\n      <p><strong>Company:</strong> "
    ++ jsStr companyName
    ++ strL "</p>\n      <p><strong>Email:</strong> "
    ++ jsStr email
    ++ strL "</p>\n      <p><strong>Organization Type:</strong> "
    ++ jsStr organizationType
    ++ strL "</p>\n      <p><strong>Message:</strong></p>\n      <p>"
    ++ (match message with
        | some m => if m = [] then strL "No message provided"
                    else replaceAll m (strL "\n") (strL "<br>")
        | none => strL "No message provided")
    ++ strL "</p>\n      <p><strong>Attached Document:</strong> "
    ++ fileName
    ++ strL "</p>\n    "

/-- `messageText` template literal (lines 128-135). -/
def messageText (companyName email organizationType message : Option Str)
    (fileName : Str) : Str :=
  strL "\nB2B Form Submission\nCompany: "
    ++ jsStr companyName
    ++ strL "\nEmail: "
    ++ jsStr email
    ++ strL "\nOrganization Type: "
    ++ jsStr organizationType
    ++ strL "\nMessage: "
    ++ (match message with
        | some m => if m = [] then strL "No message provided" else m
        | none => strL "No message provided")
    ++ strL "\nAttached Document: "
    ++ fileName
    ++ strL "\n    "

/-- `customer` object of the ticket payload; absent decoded fields are
`undefined` at the JS object level. -/
structure Customer where
  email : Option Str
  name : Option Str
deriving DecidableEq

/-- One entry of the ticket message's `attachments` array. -/
structure AttachmentRef where
  url : Str
  name : Str
  size : Nat
  content_type : Str
deriving DecidableEq

/-- The JSON body posted to the ticket endpoint (lines 141-172), restricted
to its data-dependent parts (the constant `channel`/`via` markers carry no
information). -/
structure TicketPayload where
  customer : Customer
  toAddress : Str
  fromAddress : Option Str
  bodyHtml : Str
  bodyText : Str
  attachments : List AttachmentRef
  subject : Str
  tags : List (Option Str)
deriving DecidableEq

/-- Construct the ticket payload from the decoded fields, the decoded file
and the upload endpoint's response. -/
def mkTicketPayload (env : Env) (fields : List (Str × Str))
    (file : FileAttachment) (up : UploadResponse) : TicketPayload :=
  let companyName := getField fields (strL "companyName")
  let email := getField fields (strL "email")
  let organizationType := getField fields (strL "organizationType")
  let message := getField fields (strL "message")
  { customer := ⟨email, companyName⟩
    toAddress := env.email
    fromAddress := email
    bodyHtml := messageHtml companyName email organizationType message file.name
    bodyText := messageText companyName email organizationType message file.name
    attachments := [⟨up.url, up.name, up.size, up.content_type⟩]
    subject := strL "B2B Form Submission - " ++ jsStr companyName
    tags := [some (strL "b2b-form"), organizationType] }

/-- URL of the attachment-upload endpoint. -/
def uploadUrl (env : Env) : Str :=
  strL "https://" ++ env.subdomain ++ strL ".gorgias.com/api/upload?type=attachment"

/-- URL of the ticket-creation endpoint. -/
def ticketUrl (env : Env) : Str :=
  strL "https://" ++ env.subdomain ++ strL ".gorgias.com/api/tickets"

/-- One outgoing call to the helpdesk, in the order the handler makes them. -/
inductive UpstreamCall where
  | uploadAttachment (url : Str) (file : FileAttachment)
  | createTicket (url : Str) (payload : TicketPayload)
deriving DecidableEq

/-- Body of the generic 500 response of the catch-all (lines 194-197). -/
def failBody (details : Str) : Option (List (Str × JsonValue)) :=
  some [(strL "error", .str (strL "Form submission failed")),
        (strL "details", .str details)]

/-- The exported `handler` (lines 59-199), returning the response sent and
the list of upstream calls performed.  The order of the branches mirrors the
source: the `method !== 'POST'` guard precedes both the `setHeader` calls
and the `OPTIONS` branch. -/
def handler (env : Env) (w : World) (req : Request) :
    Response × List UpstreamCall :=
  if req.method ≠ strL "POST" then
    (⟨405, [], some [(strL "error", .str (strL "Method not allowed"))]⟩, [])
  else if req.method = strL "OPTIONS" then
    (⟨200, corsHeaders, none⟩, [])
  else
    match parseMultipartForm req with
    | .error e => (⟨500, corsHeaders, failBody e⟩, [])
    | .ok form =>
      match form.file with
      | none =>
        (⟨400, corsHeaders, some [(strL "error", .str (strL "No file uploaded"))]⟩, [])
      | some file =>
        let uploadCall := UpstreamCall.uploadAttachment (uploadUrl env) file
        match w.uploadResult with
        | .error e => (⟨500, corsHeaders, failBody e⟩, [uploadCall])
        | .ok up =>
          let payload := mkTicketPayload env form.fields file up
          let ticketCall := UpstreamCall.createTicket (ticketUrl env) payload
          match w.ticketResult with
          | .error e => (⟨500, corsHeaders, failBody e⟩, [uploadCall, ticketCall])
          | .ok t =>
            (⟨200, corsHeaders,
              some [(strL "success", .bool true),
                    (strL "ticketId", .num t.id),
                    (strL "message", .str (strL "Form submitted successfully")),
                    (strL "attachmentUrl", .str up.url)]⟩,
             [uploadCall, ticketCall])

/-- The delimiter the parser splits the body on: the JS template literal
`--${boundary}`. -/
def dlm (B : Str) : Str := strL "--" ++ B

/-- Modelled from the spec: header prefix of an encoded text-field part of a
well-formed multipart body (the part begins with the CRLF that closes the
boundary-delimiter line). -/
def cdPre : Str := crlf ++ strL "Content-Disposition: form-data; "

/-- Modelled from the spec: a well-formed text-field part, as a browser
encodes it: `Content-Disposition` header with a quoted `name` attribute, a
blank line, the value, and the CRLF that precedes the next delimiter. -/
def textPart (name value : Str) : Str :=
  cdPre ++ namePat ++ name ++ strL "\"" ++ crlf ++ crlf ++ value ++ crlf

/-- Modelled from the spec: header prefix of an encoded file part (the form
posts the file under the field name `file`). -/
def filePartHdr : Str := crlf ++ strL "Content-Disposition: form-data; name=\"file\"; "

/-- Modelled from the spec: a well-formed file part: `Content-Disposition`
with quoted `filename`, a `Content-Type` header, a blank line, the payload,
and the CRLF that precedes the next delimiter. -/
def filePart (filename ctype payload : Str) : Str :=
  filePartHdr ++ filenamePat ++ filename ++ strL "\"" ++ crlf
    ++ ctPat ++ ctype ++ crlf ++ crlf ++ payload ++ crlf

/-- A malformed file part: `Content-Disposition` with a `filename` attribute
but no blank-line header/body separator. -/
def badFilePart (filename : Str) : Str :=
  filePartHdr ++ filenamePat ++ filename ++ strL "\"" ++ crlf

/-- What follows the final boundary delimiter: the closing `--` and CRLF. -/
def closeDelim : Str := strL "--" ++ crlf

/-- Modelled from the spec: a well-formed multipart body with boundary `B`:
each part preceded by the delimiter line, then the closing delimiter. -/
def encodeMultipart (B : Str) (parts : List Str) : Str :=
  dlm B ++ parts.foldr (fun p acc => p ++ dlm B ++ acc) closeDelim

/-- The `content-type` request header announcing boundary `B`. -/
def multipartContentType (B : Str) : Str :=
  strL "multipart/form-data; boundary=" ++ B

/-! ### Lemmas about the string primitives -/

theorem isPref_append_of_le (p : Str) :
    ∀ u v : Str, p.length ≤ u.length → isPref p (u ++ v) = isPref p u := by
  induction p with
  | nil => intro u v _; rfl
  | cons a as ih =>
    intro u v h
    cases u with
    | nil => simp at h
    | cons b bs =>
      simp only [List.cons_append, isPref, List.append_eq]
      rw [ih bs v (by simpa using h)]

theorem isPref_self_append (p v : Str) : isPref p (p ++ v) = true := by
  induction p with
  | nil => rfl
  | cons a as ih => simp [isPref, ih]

theorem hasOcc_cons (pat : Str) (c : Char) (rest : Str) :
    hasOcc pat (c :: rest) = (isPref pat (c :: rest) || hasOcc pat rest) := rfl

theorem hasOcc_self_append (p0 : Char) (ps v : Str) :
    hasOcc (p0 :: ps) ((p0 :: ps) ++ v) = true := by
  rw [List.cons_append, hasOcc_cons, ← List.cons_append, isPref_self_append]
  rfl

theorem hasOcc_append_of_all_ne (p0 : Char) (ps t : Str) :
    ∀ s : Str, s.all (fun c => c != p0) = true → hasOcc (p0 :: ps) t = false →
      hasOcc (p0 :: ps) (s ++ t) = false := by
  intro s
  induction s with
  | nil => intro _ h; simpa using h
  | cons c cs ih =>
    intro hall ht
    simp only [List.all_cons, Bool.and_eq_true] at hall
    have hcc : ¬ c = p0 := by simpa using hall.1
    have hc : (p0 == c) = false := beq_eq_false_iff_ne.mpr (fun h => hcc h.symm)
    simp only [List.cons_append, hasOcc_cons, isPref, hc, Bool.false_and,
      Bool.false_or]
    exact ih hall.2 ht

theorem noEarlyHit_of_all_ne (p0 : Char) (ps : Str) :
    ∀ s : Str, s.all (fun c => c != p0) = true →
      noEarlyHit (p0 :: ps) s = true := by
  intro s
  induction s with
  | nil => intro _; rfl
  | cons c cs ih =>
    intro hall
    simp only [List.all_cons, Bool.and_eq_true] at hall
    have hcc : ¬ c = p0 := by simpa using hall.1
    have hc : (p0 == c) = false := beq_eq_false_iff_ne.mpr (fun h => hcc h.symm)
    simp only [noEarlyHit, List.cons_append, isPref, hc, Bool.false_and,
      Bool.not_false, Bool.true_and]
    exact ih hall.2

theorem splitAux_cons_zero (sep : Str) (c : Char) (rest acc : Str) :
    splitAux sep (c :: rest) 0 acc =
      if isPref sep (c :: rest) then
        acc.reverse :: splitAux sep rest (sep.length - 1) []
      else
        splitAux sep rest 0 (c :: acc) := rfl

theorem splitAux_skip (sep : Str) :
    ∀ (u v acc : Str), splitAux sep (u ++ v) u.length acc = splitAux sep v 0 acc := by
  intro u
  induction u with
  | nil => intro v acc; rfl
  | cons c cs ih =>
    intro v acc
    simp only [List.cons_append, List.length_cons, splitAux]
    exact ih v acc

theorem splitAux_no_occ (sep : Str) :
    ∀ (s acc : Str), hasOcc sep s = false →
      splitAux sep s 0 acc = [acc.reverse ++ s] := by
  intro s
  induction s with
  | nil => intro acc _; simp [splitAux]
  | cons c cs ih =>
    intro acc h
    rw [hasOcc_cons] at h
    simp only [Bool.or_eq_false_iff] at h
    cases sep with
    | nil => simp [isPref] at h
    | cons s0 ss =>
      simp only [splitAux, h.1, if_false]
      rw [ih (c :: acc) h.2]
      simp

theorem splitOnL_no_occ (sep s : Str) (h : hasOcc sep s = false) :
    splitOnL sep s = [s] := by
  rw [splitOnL, splitAux_no_occ sep s [] h]
  rfl

theorem splitAux_append (s0 : Char) (ss : Str) :
    ∀ (xs ys acc : Str), noEarlyHit (s0 :: ss) xs = true →
      splitAux (s0 :: ss) (xs ++ (s0 :: ss) ++ ys) 0 acc
        = (acc.reverse ++ xs) :: splitOnL (s0 :: ss) ys := by
  intro xs
  induction xs with
  | nil =>
    intro ys acc _
    rw [List.nil_append, List.cons_append]
    have hp : isPref (s0 :: ss) (s0 :: (ss ++ ys)) = true := by
      rw [← List.cons_append]; exact isPref_self_append _ _
    simp only [splitAux, hp, if_true, List.length_cons, Nat.add_sub_cancel]
    rw [splitAux_skip (s0 :: ss) ss ys []]
    simp [splitOnL]
  | cons c cs ih =>
    intro ys acc h
    simp only [noEarlyHit, Bool.and_eq_true, Bool.not_eq_true',
      List.cons_append] at h
    have hpre : isPref (s0 :: ss) (c :: (cs ++ (s0 :: (ss ++ ys)))) = false := by
      have h1 := isPref_append_of_le (s0 :: ss) (c :: (cs ++ (s0 :: ss))) ys
        (by simp only [List.length_cons, List.length_append]; omega)
      simp only [List.cons_append, List.append_assoc] at h1
      exact h1.trans h.1
    simp only [List.cons_append]
    rw [splitAux_cons_zero, if_neg (by simp [hpre])]
    have := ih ys (c :: acc) h.2
    simp only [List.cons_append] at this
    rw [this]
    simp

theorem splitOnL_append (sep : Str) (hne : sep ≠ []) (xs ys : Str)
    (h : noEarlyHit sep xs = true) :
    splitOnL sep (xs ++ sep ++ ys) = xs :: splitOnL sep ys := by
  cases sep with
  | nil => exact absurd rfl hne
  | cons s0 ss =>
    rw [splitOnL, splitAux_append s0 ss xs ys [] h]
    simp

theorem takeWhile_append_of_all (p : Char → Bool) :
    ∀ (u v : Str), u.all p = true →
      (u ++ v).takeWhile p = u ++ v.takeWhile p := by
  intro u
  induction u with
  | nil => intro v _; rfl
  | cons c cs ih =>
    intro v h
    simp only [List.all_cons, Bool.and_eq_true] at h
    simp [List.takeWhile_cons, h.1, ih v h.2]

theorem dropWhile_append_of_all (p : Char → Bool) :
    ∀ (u v : Str), u.all p = true →
      (u ++ v).dropWhile p = v.dropWhile p := by
  intro u
  induction u with
  | nil => intro v _; rfl
  | cons c cs ih =>
    intro v h
    simp only [List.all_cons, Bool.and_eq_true] at h
    simp [List.dropWhile_cons, h.1, ih v h.2]

theorem matchQuoted_of_no_occ (pat : Str) :
    ∀ s : Str, hasOcc pat s = false → matchQuoted pat s = none := by
  intro s
  induction s with
  | nil => intro _; rfl
  | cons c cs ih =>
    intro h
    rw [hasOcc_cons] at h
    simp only [Bool.or_eq_false_iff] at h
    simp only [matchQuoted, h.1, if_false]
    exact ih h.2

theorem matchQuoted_found (p0 : Char) (ps : Str) :
    ∀ (u w : Str), noEarlyHit (p0 :: ps) u = true →
      w.takeWhile (fun ch => ch != '"') ≠ [] →
      w.dropWhile (fun ch => ch != '"') ≠ [] →
      matchQuoted (p0 :: ps) (u ++ (p0 :: ps) ++ w)
        = some (w.takeWhile (fun ch => ch != '"')) := by
  intro u
  induction u with
  | nil =>
    intro w _ htw hdw
    rw [List.nil_append, List.cons_append]
    have hp : isPref (p0 :: ps) (p0 :: (ps ++ w)) = true := by
      rw [← List.cons_append]; exact isPref_self_append _ _
    have hd : List.drop (p0 :: ps).length (p0 :: (ps ++ w)) = w := by
      rw [← List.cons_append]; exact List.drop_left _ _
    simp only [matchQuoted, hp, if_true, hd]
    simp [htw, hdw]
  | cons c cs ih =>
    intro w h htw hdw
    simp only [noEarlyHit, Bool.and_eq_true, Bool.not_eq_true',
      List.cons_append] at h
    have hpre : isPref (p0 :: ps) (c :: ((cs ++ (p0 :: ps)) ++ w)) = false := by
      have h1 := isPref_append_of_le (p0 :: ps) (c :: (cs ++ (p0 :: ps))) w
        (by simp only [List.length_cons, List.length_append]; omega)
      simp only [List.cons_append] at h1
      exact h1.trans h.1
    simp only [List.cons_append]
    rw [show matchQuoted (p0 :: ps) (c :: ((cs ++ (p0 :: ps)) ++ w))
        = matchQuoted (p0 :: ps) ((cs ++ (p0 :: ps)) ++ w) by
      simp only [matchQuoted, hpre]
      simp]
    exact ih w h.2 htw hdw

theorem matchLine_of_no_occ (pat : Str) :
    ∀ s : Str, hasOcc pat s = false → matchLine pat s = none := by
  intro s
  induction s with
  | nil => intro _; rfl
  | cons c cs ih =>
    intro h
    rw [hasOcc_cons] at h
    simp only [Bool.or_eq_false_iff] at h
    simp only [matchLine, h.1, if_false]
    exact ih h.2

theorem matchLine_found (p0 : Char) (ps : Str) :
    ∀ (u w : Str), noEarlyHit (p0 :: ps) u = true →
      w.takeWhile (fun ch => ch != '\r' && ch != '\n') ≠ [] →
      matchLine (p0 :: ps) (u ++ (p0 :: ps) ++ w)
        = some (w.takeWhile (fun ch => ch != '\r' && ch != '\n')) := by
  intro u
  induction u with
  | nil =>
    intro w _ htw
    rw [List.nil_append, List.cons_append]
    have hp : isPref (p0 :: ps) (p0 :: (ps ++ w)) = true := by
      rw [← List.cons_append]; exact isPref_self_append _ _
    have hd : List.drop (p0 :: ps).length (p0 :: (ps ++ w)) = w := by
      rw [← List.cons_append]; exact List.drop_left _ _
    simp only [matchLine, hp, if_true, hd]
    simp [htw]
  | cons c cs ih =>
    intro w h htw
    simp only [noEarlyHit, Bool.and_eq_true, Bool.not_eq_true',
      List.cons_append] at h
    have hpre : isPref (p0 :: ps) (c :: ((cs ++ (p0 :: ps)) ++ w)) = false := by
      have h1 := isPref_append_of_le (p0 :: ps) (c :: (cs ++ (p0 :: ps))) w
        (by simp only [List.length_cons, List.length_append]; omega)
      simp only [List.cons_append] at h1
      exact h1.trans h.1
    simp only [List.cons_append]
    rw [show matchLine (p0 :: ps) (c :: ((cs ++ (p0 :: ps)) ++ w))
        = matchLine (p0 :: ps) ((cs ++ (p0 :: ps)) ++ w) by
      simp only [matchLine, hpre]
      simp]
    exact ih w h.2 htw

theorem isPref_mono (p : Str) :
    ∀ u v : Str, isPref p u = true → isPref p (u ++ v) = true := by
  induction p with
  | nil => intro u v _; rfl
  | cons a as ih =>
    intro u v h
    cases u with
    | nil => simp [isPref] at h
    | cons b bs =>
      simp only [isPref, Bool.and_eq_true] at h
      simp only [List.cons_append, isPref, Bool.and_eq_true]
      exact ⟨h.1, ih bs v h.2⟩

theorem hasOcc_append_left (pat : Str) :
    ∀ u v : Str, hasOcc pat u = true → hasOcc pat (u ++ v) = true := by
  intro u
  induction u with
  | nil => intro v h; simp [hasOcc] at h
  | cons c cs ih =>
    intro v h
    rw [hasOcc_cons] at h
    rw [List.cons_append, hasOcc_cons]
    rcases Bool.or_eq_true_iff.mp h with h1 | h2
    · rw [← List.cons_append]
      rw [isPref_mono pat (c :: cs) v h1]
      rfl
    · rw [ih v h2, Bool.or_true]

theorem processPart_skip (st : ParseState) (p : Str)
    (h : hasOcc cdToken p = false) : processPart st p = .ok st := by
  simp [processPart, h]

theorem hasOcc_cdToken_textPart (n v : Str) :
    hasOcc cdToken (textPart n v) = true := by
  rw [textPart]
  apply hasOcc_append_left
  apply hasOcc_append_left
  apply hasOcc_append_left
  apply hasOcc_append_left
  apply hasOcc_append_left
  apply hasOcc_append_left
  decide

theorem takeWhile_quote_eq (n : Str) (rest : Str)
    (hnq : n.all (fun c => c != '"') = true) :
    (n ++ (strL "\"" ++ rest)).takeWhile (fun ch => ch != '"') = n := by
  rw [takeWhile_append_of_all _ _ _ hnq]
  rw [show strL "\"" ++ rest = '"' :: rest from rfl]
  simp [List.takeWhile_cons]

theorem dropWhile_quote_ne (n : Str) (rest : Str)
    (hnq : n.all (fun c => c != '"') = true) :
    (n ++ (strL "\"" ++ rest)).dropWhile (fun ch => ch != '"') ≠ [] := by
  rw [dropWhile_append_of_all _ _ _ hnq]
  rw [show strL "\"" ++ rest = '"' :: rest from rfl]
  simp [List.dropWhile_cons]

theorem matchQuoted_namePat_textPart (n v : Str)
    (hnq : n.all (fun c => c != '"') = true) (hnn : n ≠ []) :
    matchQuoted namePat (textPart n v) = some n := by
  have hshape : textPart n v
      = (cdPre ++ ('n' :: strL "ame=\""))
          ++ (n ++ (strL "\"" ++ (crlf ++ (crlf ++ (v ++ crlf))))) := by
    simp [textPart, namePat, List.append_assoc]
    rfl
  have htw : (n ++ (strL "\"" ++ (crlf ++ (crlf ++ (v ++ crlf))))).takeWhile
      (fun ch => ch != '"') = n := takeWhile_quote_eq n _ hnq
  have h := matchQuoted_found 'n' (strL "ame=\"") cdPre
    (n ++ (strL "\"" ++ (crlf ++ (crlf ++ (v ++ crlf)))))
    (by decide)
    (by rw [htw]; exact hnn)
    (dropWhile_quote_ne n _ hnq)
  rw [hshape, show namePat = 'n' :: strL "ame=\"" from rfl]
  rw [h, htw]

theorem splitOnL_blankSep_textPart (n v : Str)
    (hA : noEarlyHit blankSep (cdPre ++ namePat ++ n ++ strL "\"") = true)
    (hvb : hasOcc blankSep (v ++ crlf) = false) :
    splitOnL blankSep (textPart n v)
      = [cdPre ++ namePat ++ n ++ strL "\"", v ++ crlf] := by
  have hshape : textPart n v
      = (cdPre ++ namePat ++ n ++ strL "\"") ++ blankSep ++ (v ++ crlf) := by
    simp [textPart, blankSep, List.append_assoc]
  rw [hshape, splitOnL_append blankSep (by decide) _ _ hA,
    splitOnL_no_occ blankSep _ hvb]

theorem splitOnL_crlf_left (v : Str) (hvl : noEarlyHit crlf v = true) :
    splitOnL crlf (v ++ crlf) = [v, []] := by
  have hshape : v ++ crlf = v ++ crlf ++ ([] : Str) := by simp
  rw [hshape, splitOnL_append crlf (by decide) _ _ hvl]
  rfl

theorem processPart_textPart (st : ParseState) (n v : Str)
    (hfn : hasOcc filenamePat (textPart n v) = false)
    (hnq : n.all (fun c => c != '"') = true)
    (hnn : n ≠ [])
    (hA : noEarlyHit blankSep (cdPre ++ namePat ++ n ++ strL "\"") = true)
    (hvb : hasOcc blankSep (v ++ crlf) = false)
    (hvl : noEarlyHit crlf v = true)
    (hvn : v ≠ []) :
    processPart st (textPart n v)
      = .ok { st with fields := setField st.fields n v } := by
  have hcd := hasOcc_cdToken_textPart n v
  have hfm := matchQuoted_of_no_occ filenamePat (textPart n v) hfn
  have hnm := matchQuoted_namePat_textPart n v hnq hnn
  have hbs := splitOnL_blankSep_textPart n v hA hvb
  have hcr := splitOnL_crlf_left v hvl
  simp [processPart, hcd, hfm, hnm, hbs, hcr, hvn]

theorem hasOcc_cdToken_filePart (f ct pl : Str) :
    hasOcc cdToken (filePart f ct pl) = true := by
  rw [filePart]
  apply hasOcc_append_left
  apply hasOcc_append_left
  apply hasOcc_append_left
  apply hasOcc_append_left
  apply hasOcc_append_left
  apply hasOcc_append_left
  apply hasOcc_append_left
  apply hasOcc_append_left
  apply hasOcc_append_left
  apply hasOcc_append_left
  decide

theorem hasOcc_cdToken_badFilePart (f : Str) :
    hasOcc cdToken (badFilePart f) = true := by
  rw [badFilePart]
  apply hasOcc_append_left
  apply hasOcc_append_left
  apply hasOcc_append_left
  apply hasOcc_append_left
  decide

theorem matchQuoted_filenamePat_filePart (f ct pl : Str)
    (hfq : f.all (fun c => c != '"') = true) (hfn : f ≠ []) :
    matchQuoted filenamePat (filePart f ct pl) = some f := by
  have hshape : filePart f ct pl
      = (filePartHdr ++ ('f' :: strL "ilename=\""))
          ++ (f ++ (strL "\"" ++ (crlf ++ (ctPat ++ (ct ++ (crlf ++ (crlf ++ (pl ++ crlf)))))))) := by
    simp [filePart, filenamePat, List.append_assoc]
    rfl
  have htw := takeWhile_quote_eq f
    (crlf ++ (ctPat ++ (ct ++ (crlf ++ (crlf ++ (pl ++ crlf)))))) hfq
  have h := matchQuoted_found 'f' (strL "ilename=\"") filePartHdr
    (f ++ (strL "\"" ++ (crlf ++ (ctPat ++ (ct ++ (crlf ++ (crlf ++ (pl ++ crlf))))))))
    (by decide)
    (by rw [htw]; exact hfn)
    (dropWhile_quote_ne f _ hfq)
  rw [hshape, show filenamePat = 'f' :: strL "ilename=\"" from rfl]
  rw [h, htw]

theorem matchQuoted_filenamePat_badFilePart (f : Str)
    (hfq : f.all (fun c => c != '"') = true) (hfn : f ≠ []) :
    matchQuoted filenamePat (badFilePart f) = some f := by
  have hshape : badFilePart f
      = (filePartHdr ++ ('f' :: strL "ilename=\"")) ++ (f ++ (strL "\"" ++ crlf)) := by
    simp [badFilePart, filenamePat, List.append_assoc]
    rfl
  have htw := takeWhile_quote_eq f crlf hfq
  have h := matchQuoted_found 'f' (strL "ilename=\"") filePartHdr
    (f ++ (strL "\"" ++ crlf))
    (by decide)
    (by rw [htw]; exact hfn)
    (dropWhile_quote_ne f _ hfq)
  rw [hshape, show filenamePat = 'f' :: strL "ilename=\"" from rfl]
  rw [h, htw]

theorem matchLine_ctPat_filePart (f ct pl : Str)
    (hctScan : noEarlyHit ctPat (filePartHdr ++ filenamePat ++ f ++ strL "\"" ++ crlf) = true)
    (hct : ct.all (fun c => c != '\r' && c != '\n') = true)
    (hctn : ct ≠ []) :
    matchLine ctPat (filePart f ct pl) = some ct := by
  have hshape : filePart f ct pl
      = (filePartHdr ++ filenamePat ++ f ++ strL "\"" ++ crlf ++ ('C' :: strL "ontent-Type: "))
          ++ (ct ++ (crlf ++ (crlf ++ (pl ++ crlf)))) := by
    simp [filePart, ctPat, List.append_assoc]
    rfl
  have htw : (ct ++ (crlf ++ (crlf ++ (pl ++ crlf)))).takeWhile
      (fun ch => ch != '\r' && ch != '\n') = ct := by
    rw [takeWhile_append_of_all _ _ _ hct]
    rw [show crlf ++ (crlf ++ (pl ++ crlf)) = '\r' :: ('\n' :: (crlf ++ (pl ++ crlf))) from rfl]
    simp [List.takeWhile_cons]
  have hu : noEarlyHit ('C' :: strL "ontent-Type: ")
      (filePartHdr ++ filenamePat ++ f ++ strL "\"" ++ crlf) = true := by
    rw [show ('C' :: strL "ontent-Type: ") = ctPat from rfl]
    exact hctScan
  have h := matchLine_found 'C' (strL "ontent-Type: ")
    (filePartHdr ++ filenamePat ++ f ++ strL "\"" ++ crlf)
    (ct ++ (crlf ++ (crlf ++ (pl ++ crlf))))
    hu
    (by rw [htw]; exact hctn)
  rw [hshape, show ctPat = 'C' :: strL "ontent-Type: " from rfl]
  rw [show (filePartHdr ++ filenamePat ++ f ++ strL "\"" ++ crlf ++ ('C' :: strL "ontent-Type: "))
      ++ (ct ++ (crlf ++ (crlf ++ (pl ++ crlf))))
    = (filePartHdr ++ filenamePat ++ f ++ strL "\"" ++ crlf) ++ ('C' :: strL "ontent-Type: ")
      ++ (ct ++ (crlf ++ (crlf ++ (pl ++ crlf)))) by simp [List.append_assoc]]
  rw [h, htw]

theorem splitOnL_blankSep_filePart (f ct pl : Str)
    (hB2 : noEarlyHit blankSep
      (filePartHdr ++ filenamePat ++ f ++ strL "\"" ++ crlf ++ ctPat ++ ct) = true)
    (hplb : hasOcc blankSep (pl ++ crlf) = false) :
    splitOnL blankSep (filePart f ct pl)
      = [filePartHdr ++ filenamePat ++ f ++ strL "\"" ++ crlf ++ ctPat ++ ct,
         pl ++ crlf] := by
  have hshape : filePart f ct pl
      = (filePartHdr ++ filenamePat ++ f ++ strL "\"" ++ crlf ++ ctPat ++ ct)
          ++ blankSep ++ (pl ++ crlf) := by
    simp [filePart, blankSep, List.append_assoc]
  rw [hshape, splitOnL_append blankSep (by decide) _ _ hB2,
    splitOnL_no_occ blankSep _ hplb]

theorem processPart_filePart (st : ParseState) (f ct pl : Str)
    (hfq : f.all (fun c => c != '"') = true)
    (hfn : f ≠ [])
    (hctScan : noEarlyHit ctPat (filePartHdr ++ filenamePat ++ f ++ strL "\"" ++ crlf) = true)
    (hct : ct.all (fun c => c != '\r' && c != '\n') = true)
    (hctn : ct ≠ [])
    (hB2 : noEarlyHit blankSep
      (filePartHdr ++ filenamePat ++ f ++ strL "\"" ++ crlf ++ ctPat ++ ct) = true)
    (hplb : hasOcc blankSep (pl ++ crlf) = false)
    (hpld : hasOcc (strL "\r\n--") (pl ++ crlf) = false) :
    processPart st (filePart f ct pl)
      = .ok { st with fileData := some ⟨f, latin1Bytes (pl ++ crlf), ct⟩ } := by
  have hcd := hasOcc_cdToken_filePart f ct pl
  have hfm := matchQuoted_filenamePat_filePart f ct pl hfq hfn
  have hlm := matchLine_ctPat_filePart f ct pl hctScan hct hctn
  have hbs := splitOnL_blankSep_filePart f ct pl hB2 hplb
  have hdash := splitOnL_no_occ (strL "\r\n--") (pl ++ crlf) hpld
  simp [processPart, hcd, hfm, hlm, hbs, hdash]

theorem processPart_textPart_empty (st : ParseState) (n : Str)
    (hfn : hasOcc filenamePat (textPart n []) = false)
    (hA : noEarlyHit blankSep (cdPre ++ namePat ++ n ++ strL "\"") = true) :
    processPart st (textPart n []) = .ok st := by
  have hcd := hasOcc_cdToken_textPart n []
  have hfm := matchQuoted_of_no_occ filenamePat _ hfn
  have hbs := splitOnL_blankSep_textPart n [] hA (by decide)
  have hcc : splitOnL crlf crlf = [[], []] := by decide
  cases hnm : matchQuoted namePat (textPart n []) with
  | none => simp [processPart, hcd, hfm, hnm]
  | some nm => simp [processPart, hcd, hfm, hnm, hbs, hcc]

theorem processPart_badFilePart (st : ParseState) (f : Str)
    (hfq : f.all (fun c => c != '"') = true)
    (hfn : f ≠ [])
    (hnb : hasOcc blankSep (badFilePart f) = false) :
    processPart st (badFilePart f) = .error undefinedSplitError := by
  have hcd := hasOcc_cdToken_badFilePart f
  have hfm := matchQuoted_filenamePat_badFilePart f hfq hfn
  have hsp := splitOnL_no_occ blankSep (badFilePart f) hnb
  simp [processPart, hcd, hfm, hsp]

theorem dlm_ne_nil (B : Str) : dlm B ≠ [] := by
  rw [show dlm B = '-' :: ('-' :: B) from rfl]
  simp

theorem splitOnL_boundary_header (B : Str)
    (hBq : hasOcc (strL "boundary=") B = false) :
    splitOnL (strL "boundary=") (multipartContentType B)
      = [strL "multipart/form-data; ", B] := by
  have hsh : multipartContentType B
      = strL "multipart/form-data; " ++ strL "boundary=" ++ B := rfl
  rw [hsh, splitOnL_append (strL "boundary=") (by decide) _ _ (by decide),
    splitOnL_no_occ _ _ hBq]

theorem splitOnL_dlm_foldr (B : Str) :
    ∀ parts : List Str, (∀ p ∈ parts, noEarlyHit (dlm B) p = true) →
      hasOcc (dlm B) closeDelim = false →
      splitOnL (dlm B) (parts.foldr (fun p acc => p ++ dlm B ++ acc) closeDelim)
        = parts ++ [closeDelim] := by
  intro parts
  induction parts with
  | nil =>
    intro _ hclose
    simpa using splitOnL_no_occ (dlm B) closeDelim hclose
  | cons p ps ih =>
    intro hparts hclose
    rw [List.foldr_cons,
      splitOnL_append (dlm B) (dlm_ne_nil B) _ _ (hparts p (by simp)),
      ih (fun q hq => hparts q (by simp [hq])) hclose]
    rfl

theorem splitOnL_dlm_encode (B : Str) (parts : List Str)
    (hparts : ∀ p ∈ parts, noEarlyHit (dlm B) p = true)
    (hclose : hasOcc (dlm B) closeDelim = false) :
    splitOnL (dlm B) (encodeMultipart B parts)
      = [] :: (parts ++ [closeDelim]) := by
  rw [encodeMultipart,
    show dlm B ++ parts.foldr (fun p acc => p ++ dlm B ++ acc) closeDelim
      = ([] : Str) ++ dlm B ++ parts.foldr (fun p acc => p ++ dlm B ++ acc) closeDelim
      by simp,
    splitOnL_append (dlm B) (dlm_ne_nil B) [] _ rfl,
    splitOnL_dlm_foldr B parts hparts hclose]

theorem parseMultipartForm_encode (m B : Str) (parts : List Str)
    (hBq : hasOcc (strL "boundary=") B = false)
    (hclose : hasOcc (dlm B) closeDelim = false)
    (hparts : ∀ p ∈ parts, noEarlyHit (dlm B) p = true) :
    parseMultipartForm ⟨m, some (multipartContentType B), encodeMultipart B parts⟩
      = parseParts ([] :: (parts ++ [closeDelim])) := by
  rw [show parseMultipartForm ⟨m, some (multipartContentType B), encodeMultipart B parts⟩
      = parseParts (splitOnL
          (strL "--" ++ (((splitOnL (strL "boundary=") (multipartContentType B))[1]?).getD
            (strL "undefined")))
          (encodeMultipart B parts)) from rfl]
  rw [splitOnL_boundary_header B hBq]
  rw [show ((([strL "multipart/form-data; ", B] : List Str)[1]?).getD (strL "undefined")) = B
    from rfl]
  rw [show strL "--" ++ B = dlm B from rfl]
  rw [splitOnL_dlm_encode B parts hparts hclose]

theorem getField_setField_self (k v : Str) :
    ∀ fs : List (Str × Str), getField (setField fs k v) k = some v := by
  intro fs
  induction fs with
  | nil => simp [setField, getField, List.find?]
  | cons p rest ih =>
    by_cases h : p.1 == k
    · simp [setField, h, getField, List.find?]
    · simp only [setField, h, if_false]
      simp only [getField, List.find?, h] at ih ⊢
      exact ih

theorem getField_setField_of_ne (k k' v : Str) (hne : (k' == k) = false) :
    ∀ fs : List (Str × Str), getField (setField fs k' v) k = getField fs k := by
  intro fs
  induction fs with
  | nil => simp [setField, getField, List.find?, hne]
  | cons p rest ih =>
    by_cases h : p.1 == k'
    · have hpk : (p.1 == k) = false := by
        have : p.1 = k' := by simpa using h
        simpa [this] using hne
      simp [setField, h, getField, List.find?, hne, hpk]
    · simp only [setField, h, if_false]
      simp only [getField, List.find?] at ih ⊢
      cases hpk : p.1 == k
      · simpa [hpk] using ih
      · simp [hpk]

theorem except_bind_ok {α β : Type} (a : α) (f : α → Except Str β) :
    (Except.ok a >>= f) = f a := rfl

theorem except_bind_error {α β : Type} (e : Str) (f : α → Except Str β) :
    ((Except.error e : Except Str α) >>= f) = Except.error e := rfl

/-! ### Claim theorems -/

/-- C1: the claim says an `OPTIONS` request returns HTTP 200 with empty body
and the three CORS headers.  The code disagrees: the `method !== 'POST'`
guard at line 61 precedes both the `setHeader` calls (lines 66-68) and the
`OPTIONS` branch (line 71), so every `OPTIONS` request is answered 405 with
no CORS headers, and the preflight branch is unreachable dead code — in
contradiction with the code's own `Handle preflight request` comment and its
`Access-Control-Allow-Methods: POST, OPTIONS` header.  This theorem
evaluates the handler at an arbitrary `OPTIONS` request. -/
theorem claim1_options_request_gets_405 (env : Env) (w : World)
    (ct : Option Str) (b : Str) :
    handler env w ⟨strL "OPTIONS", ct, b⟩
      = (⟨405, [], some [(strL "error", .str (strL "Method not allowed"))]⟩, []) := by
  simp [handler, show (strL "OPTIONS" ≠ strL "POST") by decide]

/-- C9: a request whose method is not `POST` is answered 405 before any
`setHeader` call executes: the 405 response carries an empty header list
(none of the three CORS headers) and no upstream call is made. -/
theorem claim9_405_no_cors (env : Env) (w : World) (req : Request)
    (hm : req.method ≠ strL "POST") :
    handler env w req
      = (⟨405, [], some [(strL "error", .str (strL "Method not allowed"))]⟩, []) := by
  simp [handler, hm]

theorem claim9_405_no_cors_witness :
    handler ⟨strL "acme", strL "user", strL "key", strL "b2b@acme.com"⟩
        ⟨.ok ⟨strL "u", strL "n", 1, strL "c"⟩, .ok ⟨1⟩⟩
        ⟨strL "GET", none, []⟩
      = (⟨405, [], some [(strL "error", .str (strL "Method not allowed"))]⟩, []) :=
  claim9_405_no_cors _ _ _ (by decide)

/-- C3: when the multipart body decodes successfully but contains no file
part, the handler answers 400 with `{ error: "No file uploaded" }` and makes
no upstream call at all. -/
theorem claim3_no_file_400 (env : Env) (w : World) (req : Request)
    (form : DecodedForm)
    (hm : req.method = strL "POST")
    (hparse : parseMultipartForm req = .ok form)
    (hfile : form.file = none) :
    handler env w req
      = (⟨400, corsHeaders, some [(strL "error", .str (strL "No file uploaded"))]⟩, []) := by
  simp [handler, hm, hparse, hfile, show ¬ (strL "POST" = strL "OPTIONS") by decide]

theorem claim3_no_file_400_witness :
    handler ⟨strL "acme", strL "user", strL "key", strL "b2b@acme.com"⟩
        ⟨.ok ⟨strL "u", strL "n", 1, strL "c"⟩, .ok ⟨1⟩⟩
        ⟨strL "POST", some (multipartContentType (strL "BOUND")),
          encodeMultipart (strL "BOUND") [textPart (strL "companyName") (strL "Acme")]⟩
      = (⟨400, corsHeaders, some [(strL "error", .str (strL "No file uploaded"))]⟩, []) :=
  claim3_no_file_400 _ _ _ ⟨[(strL "companyName", strL "Acme")], none⟩ rfl rfl rfl

/-- C4: when the body decodes successfully with a file but the
attachment-upload call fails (axios rejects on network failure or non-2xx
status), the handler answers 500 and never calls the ticket endpoint: the
call trace contains only the upload call. -/
theorem claim4_upload_failure_500_no_ticket (env : Env) (w : World)
    (req : Request) (form : DecodedForm) (file : FileAttachment) (e : Str)
    (hm : req.method = strL "POST")
    (hparse : parseMultipartForm req = .ok form)
    (hfile : form.file = some file)
    (hup : w.uploadResult = .error e) :
    handler env w req
      = (⟨500, corsHeaders, failBody e⟩,
         [UpstreamCall.uploadAttachment (uploadUrl env) file]) := by
  simp [handler, hm, hparse, hfile, hup,
    show ¬ (strL "POST" = strL "OPTIONS") by decide]

theorem claim4_upload_failure_500_no_ticket_witness :
    handler ⟨strL "acme", strL "user", strL "key", strL "b2b@acme.com"⟩
        ⟨.error (strL "Request failed with status code 500"), .ok ⟨1⟩⟩
        ⟨strL "POST", some (multipartContentType (strL "BOUND")),
          encodeMultipart (strL "BOUND")
            [filePart (strL "doc.pdf") (strL "application/pdf") (strL "HELLO")]⟩
      = (⟨500, corsHeaders, failBody (strL "Request failed with status code 500")⟩,
         [UpstreamCall.uploadAttachment
           (uploadUrl ⟨strL "acme", strL "user", strL "key", strL "b2b@acme.com"⟩)
           ⟨strL "doc.pdf", latin1Bytes (strL "HELLO\r\n"), strL "application/pdf"⟩]) :=
  claim4_upload_failure_500_no_ticket _ _ _
    ⟨[], some ⟨strL "doc.pdf", latin1Bytes (strL "HELLO\r\n"), strL "application/pdf"⟩⟩
    ⟨strL "doc.pdf", latin1Bytes (strL "HELLO\r\n"), strL "application/pdf"⟩
    (strL "Request failed with status code 500") rfl rfl rfl rfl

/-- C7: when parsing throws (any exception: missing `content-type` header,
or a file part without the blank-line separator), the rejection reaches the
handler's catch-all, which answers 500 with
`{ error: "Form submission failed", details }`; no upstream call is made. -/
theorem claim7_parse_error_500 (env : Env) (w : World) (req : Request)
    (e : Str)
    (hm : req.method = strL "POST")
    (hparse : parseMultipartForm req = .error e) :
    handler env w req = (⟨500, corsHeaders, failBody e⟩, []) := by
  simp [handler, hm, hparse, show ¬ (strL "POST" = strL "OPTIONS") by decide]

theorem claim7_parse_error_500_witness :
    handler ⟨strL "acme", strL "user", strL "key", strL "b2b@acme.com"⟩
        ⟨.ok ⟨strL "u", strL "n", 1, strL "c"⟩, .ok ⟨1⟩⟩
        ⟨strL "POST", none, strL "not multipart"⟩
      = (⟨500, corsHeaders, failBody undefinedSplitError⟩, []) :=
  claim7_parse_error_500 _ _ _ undefinedSplitError rfl rfl

/-- C2, counterexample to the claim as stated, in both ways the byte payload
fails to be recovered unchanged.  First, for the well-formed body with
boundary `BOUND`, three text fields and one file part with ASCII payload
`HELLO`, decode succeeds and recovers the fields, the filename and the
content type exactly, but the file data is the bytes of `HELLO\r\n` — the
CRLF preceding the closing boundary delimiter is kept, because the outer
`split` on `--boundary` already consumed the delimiter and the later
`split('\r\n--')` finds nothing to trim.  Second, `Buffer.from(..., 'binary')`
truncates every UTF-16 code unit to its low 8 bits, so the distinct one-
character payloads `€` (U+20AC) and `¬` (U+00AC) both decode to the same
byte sequence `[172, 13, 10]`: the payload is not even recovered
injectively. -/
theorem claim2_counterexample :
    parseMultipartForm ⟨strL "POST", some (multipartContentType (strL "BOUND")),
        encodeMultipart (strL "BOUND")
          [textPart (strL "companyName") (strL "Acme"),
           textPart (strL "email") (strL "a@b.co"),
           textPart (strL "organizationType") (strL "retail"),
           filePart (strL "doc.pdf") (strL "application/pdf") (strL "HELLO")]⟩
      = .ok ⟨[(strL "companyName", strL "Acme"), (strL "email", strL "a@b.co"),
              (strL "organizationType", strL "retail")],
             some ⟨strL "doc.pdf", [72, 69, 76, 76, 79, 13, 10],
                   strL "application/pdf"⟩⟩
    ∧ ([72, 69, 76, 76, 79, 13, 10] : List Nat) ≠ latin1Bytes (strL "HELLO")
    ∧ parseMultipartForm ⟨strL "POST", some (multipartContentType (strL "BOUND")),
        encodeMultipart (strL "BOUND")
          [filePart (strL "e.txt") (strL "text/plain") (strL "€")]⟩
      = .ok ⟨[], some ⟨strL "e.txt", [172, 13, 10], strL "text/plain"⟩⟩
    ∧ parseMultipartForm ⟨strL "POST", some (multipartContentType (strL "BOUND")),
        encodeMultipart (strL "BOUND")
          [filePart (strL "e.txt") (strL "text/plain") (strL "¬")]⟩
      = .ok ⟨[], some ⟨strL "e.txt", [172, 13, 10], strL "text/plain"⟩⟩
    ∧ strL "€" ≠ strL "¬" :=
  ⟨rfl, by decide, rfl, rfl, by decide⟩

/-- C2, amended: for every well-formed multipart body with boundary `B`
containing three text-field parts and one file part (the well-formedness
side conditions are the decidable hygiene hypotheses below), decoding
succeeds, the three field names map to their exact submitted values, and the
file's name and content type are recovered unchanged — but the recovered
file data is not the exact payload: it is the byte sequence obtained by
truncating every UTF-16 code unit of the payload with the part-terminating
CRLF appended to its low 8 bits (`Buffer.from(..., 'binary')` at line 29). -/
theorem claim2_roundtrip_trailing_crlf
    (B n1 v1 n2 v2 n3 v3 f ct pl : Str)
    (hBq : hasOcc (strL "boundary=") B = false)
    (hclose : hasOcc (dlm B) closeDelim = false)
    (hd1 : noEarlyHit (dlm B) (textPart n1 v1) = true)
    (hd2 : noEarlyHit (dlm B) (textPart n2 v2) = true)
    (hd3 : noEarlyHit (dlm B) (textPart n3 v3) = true)
    (hd4 : noEarlyHit (dlm B) (filePart f ct pl) = true)
    (hfn1 : hasOcc filenamePat (textPart n1 v1) = false)
    (hnq1 : n1.all (fun c => c != '"') = true)
    (hnn1 : n1 ≠ [])
    (hA1 : noEarlyHit blankSep (cdPre ++ namePat ++ n1 ++ strL "\"") = true)
    (hvb1 : hasOcc blankSep (v1 ++ crlf) = false)
    (hvl1 : noEarlyHit crlf v1 = true)
    (hvn1 : v1 ≠ [])
    (hfn2 : hasOcc filenamePat (textPart n2 v2) = false)
    (hnq2 : n2.all (fun c => c != '"') = true)
    (hnn2 : n2 ≠ [])
    (hA2 : noEarlyHit blankSep (cdPre ++ namePat ++ n2 ++ strL "\"") = true)
    (hvb2 : hasOcc blankSep (v2 ++ crlf) = false)
    (hvl2 : noEarlyHit crlf v2 = true)
    (hvn2 : v2 ≠ [])
    (hfn3 : hasOcc filenamePat (textPart n3 v3) = false)
    (hnq3 : n3.all (fun c => c != '"') = true)
    (hnn3 : n3 ≠ [])
    (hA3 : noEarlyHit blankSep (cdPre ++ namePat ++ n3 ++ strL "\"") = true)
    (hvb3 : hasOcc blankSep (v3 ++ crlf) = false)
    (hvl3 : noEarlyHit crlf v3 = true)
    (hvn3 : v3 ≠ [])
    (hfq : f.all (fun c => c != '"') = true)
    (hfne : f ≠ [])
    (hctScan : noEarlyHit ctPat (filePartHdr ++ filenamePat ++ f ++ strL "\"" ++ crlf) = true)
    (hct : ct.all (fun c => c != '\r' && c != '\n') = true)
    (hctn : ct ≠ [])
    (hB2 : noEarlyHit blankSep
      (filePartHdr ++ filenamePat ++ f ++ strL "\"" ++ crlf ++ ctPat ++ ct) = true)
    (hplb : hasOcc blankSep (pl ++ crlf) = false)
    (hpld : hasOcc (strL "\r\n--") (pl ++ crlf) = false)
    (h12 : (n2 == n1) = false)
    (h13 : (n3 == n1) = false)
    (h23 : (n3 == n2) = false) :
    parseMultipartForm ⟨strL "POST", some (multipartContentType B),
        encodeMultipart B [textPart n1 v1, textPart n2 v2, textPart n3 v3,
          filePart f ct pl]⟩
      = .ok ⟨setField (setField (setField [] n1 v1) n2 v2) n3 v3,
             some ⟨f, latin1Bytes (pl ++ crlf), ct⟩⟩
    ∧ getField (setField (setField (setField [] n1 v1) n2 v2) n3 v3) n1 = some v1
    ∧ getField (setField (setField (setField [] n1 v1) n2 v2) n3 v3) n2 = some v2
    ∧ getField (setField (setField (setField [] n1 v1) n2 v2) n3 v3) n3 = some v3 := by
  have hparts : ∀ p ∈ [textPart n1 v1, textPart n2 v2, textPart n3 v3,
      filePart f ct pl], noEarlyHit (dlm B) p = true := by
    intro p hp
    simp only [List.mem_cons, List.not_mem_nil, or_false] at hp
    rcases hp with rfl | rfl | rfl | rfl
    · exact hd1
    · exact hd2
    · exact hd3
    · exact hd4
  refine ⟨?_, ?_, ?_, ?_⟩
  · rw [parseMultipartForm_encode _ B _ hBq hclose hparts]
    have e0 : processPart ⟨[], none⟩ [] = .ok ⟨[], none⟩ :=
      processPart_skip _ _ rfl
    have e1 := processPart_textPart ⟨[], none⟩ n1 v1
      hfn1 hnq1 hnn1 hA1 hvb1 hvl1 hvn1
    have e2 := processPart_textPart ⟨setField [] n1 v1, none⟩ n2 v2
      hfn2 hnq2 hnn2 hA2 hvb2 hvl2 hvn2
    have e3 := processPart_textPart
      ⟨setField (setField [] n1 v1) n2 v2, none⟩ n3 v3
      hfn3 hnq3 hnn3 hA3 hvb3 hvl3 hvn3
    have e4 := processPart_filePart
      ⟨setField (setField (setField [] n1 v1) n2 v2) n3 v3, none⟩ f ct pl
      hfq hfne hctScan hct hctn hB2 hplb hpld
    have e5 : processPart
        ⟨setField (setField (setField [] n1 v1) n2 v2) n3 v3,
         some ⟨f, latin1Bytes (pl ++ crlf), ct⟩⟩ closeDelim
        = .ok ⟨setField (setField (setField [] n1 v1) n2 v2) n3 v3,
               some ⟨f, latin1Bytes (pl ++ crlf), ct⟩⟩ :=
      processPart_skip _ _ (by decide)
    simp [parseParts, List.foldlM_cons, List.foldlM_nil, except_bind_ok,
      e0, e1, e2, e3, e4, e5]
  · rw [getField_setField_of_ne n1 n3 v3 h13,
      getField_setField_of_ne n1 n2 v2 h12, getField_setField_self]
  · rw [getField_setField_of_ne n2 n3 v3 h23, getField_setField_self]
  · rw [getField_setField_self]

theorem claim2_roundtrip_trailing_crlf_witness :
    parseMultipartForm ⟨strL "POST", some (multipartContentType (strL "BOUND")),
        encodeMultipart (strL "BOUND")
          [textPart (strL "companyName") (strL "Acme"),
           textPart (strL "email") (strL "a@b.co"),
           textPart (strL "organizationType") (strL "retail"),
           filePart (strL "doc.pdf") (strL "application/pdf") (strL "HELLO")]⟩
      = .ok ⟨setField (setField (setField [] (strL "companyName") (strL "Acme"))
               (strL "email") (strL "a@b.co")) (strL "organizationType") (strL "retail"),
             some ⟨strL "doc.pdf", latin1Bytes (strL "HELLO" ++ crlf),
                   strL "application/pdf"⟩⟩
    ∧ getField (setField (setField (setField [] (strL "companyName") (strL "Acme"))
        (strL "email") (strL "a@b.co")) (strL "organizationType") (strL "retail"))
        (strL "companyName") = some (strL "Acme")
    ∧ getField (setField (setField (setField [] (strL "companyName") (strL "Acme"))
        (strL "email") (strL "a@b.co")) (strL "organizationType") (strL "retail"))
        (strL "email") = some (strL "a@b.co")
    ∧ getField (setField (setField (setField [] (strL "companyName") (strL "Acme"))
        (strL "email") (strL "a@b.co")) (strL "organizationType") (strL "retail"))
        (strL "organizationType") = some (strL "retail") :=
  claim2_roundtrip_trailing_crlf (strL "BOUND")
    (strL "companyName") (strL "Acme") (strL "email") (strL "a@b.co")
    (strL "organizationType") (strL "retail")
    (strL "doc.pdf") (strL "application/pdf") (strL "HELLO")
    (by decide) (by decide) (by decide) (by decide) (by decide) (by decide)
    (by decide) (by decide) (by decide) (by decide) (by decide) (by decide)
    (by decide) (by decide) (by decide) (by decide) (by decide) (by decide)
    (by decide) (by decide) (by decide) (by decide) (by decide) (by decide)
    (by decide) (by decide) (by decide) (by decide) (by decide) (by decide)
    (by decide) (by decide) (by decide) (by decide) (by decide) (by decide)
    (by decide) (by decide)

/-- C5: the decoder's result has a single optional file slot (`fileData` is
one variable), so at most one attachment is ever recognized; and each file
part overwrites the previous one, so a well-formed body with two file parts
decodes to a form containing only the second file part's name, content type
and data (the latin1-truncated bytes of its payload with the trailing
CRLF). -/
theorem claim5_last_file_wins
    (B f1 ct1 pl1 f2 ct2 pl2 : Str)
    (hBq : hasOcc (strL "boundary=") B = false)
    (hclose : hasOcc (dlm B) closeDelim = false)
    (hd1 : noEarlyHit (dlm B) (filePart f1 ct1 pl1) = true)
    (hd2 : noEarlyHit (dlm B) (filePart f2 ct2 pl2) = true)
    (hfq1 : f1.all (fun c => c != '"') = true)
    (hfne1 : f1 ≠ [])
    (hctScan1 : noEarlyHit ctPat (filePartHdr ++ filenamePat ++ f1 ++ strL "\"" ++ crlf) = true)
    (hct1 : ct1.all (fun c => c != '\r' && c != '\n') = true)
    (hctn1 : ct1 ≠ [])
    (hB21 : noEarlyHit blankSep
      (filePartHdr ++ filenamePat ++ f1 ++ strL "\"" ++ crlf ++ ctPat ++ ct1) = true)
    (hplb1 : hasOcc blankSep (pl1 ++ crlf) = false)
    (hpld1 : hasOcc (strL "\r\n--") (pl1 ++ crlf) = false)
    (hfq2 : f2.all (fun c => c != '"') = true)
    (hfne2 : f2 ≠ [])
    (hctScan2 : noEarlyHit ctPat (filePartHdr ++ filenamePat ++ f2 ++ strL "\"" ++ crlf) = true)
    (hct2 : ct2.all (fun c => c != '\r' && c != '\n') = true)
    (hctn2 : ct2 ≠ [])
    (hB22 : noEarlyHit blankSep
      (filePartHdr ++ filenamePat ++ f2 ++ strL "\"" ++ crlf ++ ctPat ++ ct2) = true)
    (hplb2 : hasOcc blankSep (pl2 ++ crlf) = false)
    (hpld2 : hasOcc (strL "\r\n--") (pl2 ++ crlf) = false) :
    parseMultipartForm ⟨strL "POST", some (multipartContentType B),
        encodeMultipart B [filePart f1 ct1 pl1, filePart f2 ct2 pl2]⟩
      = .ok ⟨[], some ⟨f2, latin1Bytes (pl2 ++ crlf), ct2⟩⟩ := by
  have hparts : ∀ p ∈ [filePart f1 ct1 pl1, filePart f2 ct2 pl2],
      noEarlyHit (dlm B) p = true := by
    intro p hp
    simp only [List.mem_cons, List.not_mem_nil, or_false] at hp
    rcases hp with rfl | rfl
    · exact hd1
    · exact hd2
  rw [parseMultipartForm_encode _ B _ hBq hclose hparts]
  have e0 : processPart ⟨[], none⟩ [] = .ok ⟨[], none⟩ :=
    processPart_skip _ _ rfl
  have e1 := processPart_filePart ⟨[], none⟩ f1 ct1 pl1
    hfq1 hfne1 hctScan1 hct1 hctn1 hB21 hplb1 hpld1
  have e2 := processPart_filePart ⟨[], some ⟨f1, latin1Bytes (pl1 ++ crlf), ct1⟩⟩ f2 ct2 pl2
    hfq2 hfne2 hctScan2 hct2 hctn2 hB22 hplb2 hpld2
  have e3 : processPart ⟨[], some ⟨f2, latin1Bytes (pl2 ++ crlf), ct2⟩⟩ closeDelim
      = .ok ⟨[], some ⟨f2, latin1Bytes (pl2 ++ crlf), ct2⟩⟩ :=
    processPart_skip _ _ (by decide)
  simp [parseParts, List.foldlM_cons, List.foldlM_nil, except_bind_ok,
    e0, e1, e2, e3]

theorem claim5_last_file_wins_witness :
    parseMultipartForm ⟨strL "POST", some (multipartContentType (strL "BOUND")),
        encodeMultipart (strL "BOUND")
          [filePart (strL "one.txt") (strL "text/plain") (strL "FIRST"),
           filePart (strL "two.txt") (strL "text/csv") (strL "SECOND")]⟩
      = .ok ⟨[], some ⟨strL "two.txt", latin1Bytes (strL "SECOND" ++ crlf),
                       strL "text/csv"⟩⟩ :=
  claim5_last_file_wins (strL "BOUND")
    (strL "one.txt") (strL "text/plain") (strL "FIRST")
    (strL "two.txt") (strL "text/csv") (strL "SECOND")
    (by decide) (by decide) (by decide) (by decide) (by decide) (by decide)
    (by decide) (by decide) (by decide) (by decide) (by decide) (by decide)
    (by decide) (by decide) (by decide) (by decide) (by decide) (by decide)
    (by decide) (by decide)

/-- C6: a text-field part submitted with an empty value is not inserted into
the fields mapping: decoding a body whose only part is a text field with
empty value yields an empty fields mapping (the name is absent, not present
with an empty value) and no file. -/
theorem claim6_empty_field_absent (B n : Str)
    (hBq : hasOcc (strL "boundary=") B = false)
    (hclose : hasOcc (dlm B) closeDelim = false)
    (hd : noEarlyHit (dlm B) (textPart n []) = true)
    (hfn : hasOcc filenamePat (textPart n []) = false)
    (hA : noEarlyHit blankSep (cdPre ++ namePat ++ n ++ strL "\"") = true) :
    parseMultipartForm ⟨strL "POST", some (multipartContentType B),
        encodeMultipart B [textPart n []]⟩ = .ok ⟨[], none⟩
    ∧ getField [] n = none := by
  refine ⟨?_, rfl⟩
  have hparts : ∀ p ∈ [textPart n []], noEarlyHit (dlm B) p = true := by
    intro p hp
    simp only [List.mem_singleton] at hp
    rcases hp with rfl
    exact hd
  rw [parseMultipartForm_encode _ B _ hBq hclose hparts]
  have e0 : processPart ⟨[], none⟩ [] = .ok ⟨[], none⟩ :=
    processPart_skip _ _ rfl
  have e1 := processPart_textPart_empty ⟨[], none⟩ n hfn hA
  have e2 : processPart ⟨[], none⟩ closeDelim = .ok ⟨[], none⟩ :=
    processPart_skip _ _ (by decide)
  simp [parseParts, List.foldlM_cons, List.foldlM_nil, except_bind_ok,
    e0, e1, e2]

theorem claim6_empty_field_absent_witness :
    parseMultipartForm ⟨strL "POST", some (multipartContentType (strL "BOUND")),
        encodeMultipart (strL "BOUND") [textPart (strL "companyName") []]⟩
      = .ok ⟨[], none⟩
    ∧ getField [] (strL "companyName") = none :=
  claim6_empty_field_absent (strL "BOUND") (strL "companyName")
    (by decide) (by decide) (by decide) (by decide) (by decide)

/-- C8: a part carrying the `Content-Disposition` token and a `filename`
attribute but no `\r\n\r\n` header/body separator makes the whole parse
reject (the JS `undefined.split` TypeError), so the request is answered 500
by the catch-all; the malformed part is not skipped and no partial
`DecodedForm` is produced. -/
theorem claim8_missing_separator_rejects (env : Env) (w : World) (B f : Str)
    (hBq : hasOcc (strL "boundary=") B = false)
    (hclose : hasOcc (dlm B) closeDelim = false)
    (hd : noEarlyHit (dlm B) (badFilePart f) = true)
    (hfq : f.all (fun c => c != '"') = true)
    (hfne : f ≠ [])
    (hnb : hasOcc blankSep (badFilePart f) = false) :
    parseMultipartForm ⟨strL "POST", some (multipartContentType B),
        encodeMultipart B [badFilePart f]⟩ = .error undefinedSplitError
    ∧ handler env w ⟨strL "POST", some (multipartContentType B),
        encodeMultipart B [badFilePart f]⟩
      = (⟨500, corsHeaders, failBody undefinedSplitError⟩, []) := by
  have hparts : ∀ p ∈ [badFilePart f], noEarlyHit (dlm B) p = true := by
    intro p hp
    simp only [List.mem_singleton] at hp
    rcases hp with rfl
    exact hd
  have hp : parseMultipartForm ⟨strL "POST", some (multipartContentType B),
      encodeMultipart B [badFilePart f]⟩ = .error undefinedSplitError := by
    rw [parseMultipartForm_encode _ B _ hBq hclose hparts]
    have e0 : processPart ⟨[], none⟩ [] = .ok ⟨[], none⟩ :=
      processPart_skip _ _ rfl
    have e1 := processPart_badFilePart ⟨[], none⟩ f hfq hfne hnb
    simp [parseParts, List.foldlM_cons, List.foldlM_nil, except_bind_ok,
      except_bind_error, e0, e1]
  refine ⟨hp, ?_⟩
  simp [handler, hp, show ¬ (strL "POST" = strL "OPTIONS") by decide]

theorem claim8_missing_separator_rejects_witness :
    parseMultipartForm ⟨strL "POST", some (multipartContentType (strL "BOUND")),
        encodeMultipart (strL "BOUND") [badFilePart (strL "doc.pdf")]⟩
      = .error undefinedSplitError
    ∧ handler ⟨strL "acme", strL "user", strL "key", strL "b2b@acme.com"⟩
        ⟨.ok ⟨strL "u", strL "n", 1, strL "c"⟩, .ok ⟨1⟩⟩
        ⟨strL "POST", some (multipartContentType (strL "BOUND")),
          encodeMultipart (strL "BOUND") [badFilePart (strL "doc.pdf")]⟩
      = (⟨500, corsHeaders, failBody undefinedSplitError⟩, []) :=
  claim8_missing_separator_rejects
    ⟨strL "acme", strL "user", strL "key", strL "b2b@acme.com"⟩
    ⟨.ok ⟨strL "u", strL "n", 1, strL "c"⟩, .ok ⟨1⟩⟩
    (strL "BOUND") (strL "doc.pdf")
    (by decide) (by decide) (by decide) (by decide) (by decide) (by decide)

/-- C10: the handler validates none of the decoded text fields.  If the form
decodes with a file but `companyName`, `email`, `organizationType` and
`message` are all absent, both upstream calls are still made; the missing
values are embedded as the JS template-literal string `undefined` in the
message bodies and the subject, as an absent (`undefined`) value in the
customer record and the message source, and as an `undefined` entry in the
tags array (`message` alone falls back to `No message provided` in the
bodies, by the explicit `||`/ternary defaults). -/
theorem claim10_no_field_validation (env : Env) (w : World) (req : Request)
    (form : DecodedForm) (file : FileAttachment) (up : UploadResponse)
    (t : TicketResponse)
    (hm : req.method = strL "POST")
    (hparse : parseMultipartForm req = .ok form)
    (hfile : form.file = some file)
    (hc1 : getField form.fields (strL "companyName") = none)
    (hc2 : getField form.fields (strL "email") = none)
    (hc3 : getField form.fields (strL "organizationType") = none)
    (hc4 : getField form.fields (strL "message") = none)
    (hup : w.uploadResult = .ok up)
    (ht : w.ticketResult = .ok t) :
    handler env w req
      = (⟨200, corsHeaders,
          some [(strL "success", .bool true), (strL "ticketId", .num t.id),
                (strL "message", .str (strL "Form submitted successfully")),
                (strL "attachmentUrl", .str up.url)]⟩,
         [UpstreamCall.uploadAttachment (uploadUrl env) file,
          UpstreamCall.createTicket (ticketUrl env)
            (mkTicketPayload env form.fields file up)])
    ∧ (mkTicketPayload env form.fields file up).customer = ⟨none, none⟩
    ∧ (mkTicketPayload env form.fields file up).fromAddress = none
    ∧ (mkTicketPayload env form.fields file up).subject
        = strL "B2B Form Submission - undefined"
    ∧ (mkTicketPayload env form.fields file up).tags
        = [some (strL "b2b-form"), none]
    ∧ hasOcc (strL "Company: undefined")
        (mkTicketPayload env form.fields file up).bodyText = true
    ∧ hasOcc (strL "<strong>Company:</strong> undefined")
        (mkTicketPayload env form.fields file up).bodyHtml = true
    ∧ hasOcc (strL "<strong>Email:</strong> undefined")
        (mkTicketPayload env form.fields file up).bodyHtml = true
    ∧ hasOcc (strL "<strong>Organization Type:</strong> undefined")
        (mkTicketPayload env form.fields file up).bodyHtml = true := by
  refine ⟨?_, ?_, ?_, ?_, ?_, ?_, ?_, ?_, ?_⟩
  · simp [handler, hm, hparse, hfile, hup, ht,
      show ¬ (strL "POST" = strL "OPTIONS") by decide]
  · simp [mkTicketPayload, hc1, hc2]
  · simp [mkTicketPayload, hc2]
  · simp only [mkTicketPayload, hc1, jsStr]
    decide
  · simp [mkTicketPayload, hc3]
  · simp only [mkTicketPayload, messageText, hc1, hc2, hc3, hc4, jsStr]
    apply hasOcc_append_left
    apply hasOcc_append_left
    decide
  · simp only [mkTicketPayload, messageHtml, hc1, hc2, hc3, hc4, jsStr]
    apply hasOcc_append_left
    apply hasOcc_append_left
    decide
  · simp only [mkTicketPayload, messageHtml, hc1, hc2, hc3, hc4, jsStr]
    apply hasOcc_append_left
    apply hasOcc_append_left
    decide
  · simp only [mkTicketPayload, messageHtml, hc1, hc2, hc3, hc4, jsStr]
    apply hasOcc_append_left
    apply hasOcc_append_left
    decide

theorem claim10_no_field_validation_witness :
    handler ⟨strL "acme", strL "user", strL "key", strL "b2b@acme.com"⟩
        ⟨.ok ⟨strL "https://acme.gorgias.com/att/1", strL "doc.pdf", 5,
              strL "application/pdf"⟩, .ok ⟨42⟩⟩
        ⟨strL "POST", some (multipartContentType (strL "BOUND")),
          encodeMultipart (strL "BOUND")
            [filePart (strL "doc.pdf") (strL "application/pdf") (strL "HELLO")]⟩
      = (⟨200, corsHeaders,
          some [(strL "success", .bool true), (strL "ticketId", .num 42),
                (strL "message", .str (strL "Form submitted successfully")),
                (strL "attachmentUrl", .str (strL "https://acme.gorgias.com/att/1"))]⟩,
         [UpstreamCall.uploadAttachment
            (uploadUrl ⟨strL "acme", strL "user", strL "key", strL "b2b@acme.com"⟩)
            ⟨strL "doc.pdf", latin1Bytes (strL "HELLO\r\n"), strL "application/pdf"⟩,
          UpstreamCall.createTicket
            (ticketUrl ⟨strL "acme", strL "user", strL "key", strL "b2b@acme.com"⟩)
            (mkTicketPayload ⟨strL "acme", strL "user", strL "key", strL "b2b@acme.com"⟩
              [] ⟨strL "doc.pdf", latin1Bytes (strL "HELLO\r\n"), strL "application/pdf"⟩
              ⟨strL "https://acme.gorgias.com/att/1", strL "doc.pdf", 5,
               strL "application/pdf"⟩)])
    ∧ (mkTicketPayload ⟨strL "acme", strL "user", strL "key", strL "b2b@acme.com"⟩
        [] ⟨strL "doc.pdf", latin1Bytes (strL "HELLO\r\n"), strL "application/pdf"⟩
        ⟨strL "https://acme.gorgias.com/att/1", strL "doc.pdf", 5,
         strL "application/pdf"⟩).customer = ⟨none, none⟩
    ∧ (mkTicketPayload ⟨strL "acme", strL "user", strL "key", strL "b2b@acme.com"⟩
        [] ⟨strL "doc.pdf", latin1Bytes (strL "HELLO\r\n"), strL "application/pdf"⟩
        ⟨strL "https://acme.gorgias.com/att/1", strL "doc.pdf", 5,
         strL "application/pdf"⟩).fromAddress = none
    ∧ (mkTicketPayload ⟨strL "acme", strL "user", strL "key", strL "b2b@acme.com"⟩
        [] ⟨strL "doc.pdf", latin1Bytes (strL "HELLO\r\n"), strL "application/pdf"⟩
        ⟨strL "https://acme.gorgias.com/att/1", strL "doc.pdf", 5,
         strL "application/pdf"⟩).subject = strL "B2B Form Submission - undefined"
    ∧ (mkTicketPayload ⟨strL "acme", strL "user", strL "key", strL "b2b@acme.com"⟩
        [] ⟨strL "doc.pdf", latin1Bytes (strL "HELLO\r\n"), strL "application/pdf"⟩
        ⟨strL "https://acme.gorgias.com/att/1", strL "doc.pdf", 5,
         strL "application/pdf"⟩).tags = [some (strL "b2b-form"), none]
    ∧ hasOcc (strL "Company: undefined")
        (mkTicketPayload ⟨strL "acme", strL "user", strL "key", strL "b2b@acme.com"⟩
          [] ⟨strL "doc.pdf", latin1Bytes (strL "HELLO\r\n"), strL "application/pdf"⟩
          ⟨strL "https://acme.gorgias.com/att/1", strL "doc.pdf", 5,
           strL "application/pdf"⟩).bodyText = true
    ∧ hasOcc (strL "<strong>Company:</strong> undefined")
        (mkTicketPayload ⟨strL "acme", strL "user", strL "key", strL "b2b@acme.com"⟩
          [] ⟨strL "doc.pdf", latin1Bytes (strL "HELLO\r\n"), strL "application/pdf"⟩
          ⟨strL "https://acme.gorgias.com/att/1", strL "doc.pdf", 5,
           strL "application/pdf"⟩).bodyHtml = true
    ∧ hasOcc (strL "<strong>Email:</strong> undefined")
        (mkTicketPayload ⟨strL "acme", strL "user", strL "key", strL "b2b@acme.com"⟩
          [] ⟨strL "doc.pdf", latin1Bytes (strL "HELLO\r\n"), strL "application/pdf"⟩
          ⟨strL "https://acme.gorgias.com/att/1", strL "doc.pdf", 5,
           strL "application/pdf"⟩).bodyHtml = true
    ∧ hasOcc (strL "<strong>Organization Type:</strong> undefined")
        (mkTicketPayload ⟨strL "acme", strL "user", strL "key", strL "b2b@acme.com"⟩
          [] ⟨strL "doc.pdf", latin1Bytes (strL "HELLO\r\n"), strL "application/pdf"⟩
          ⟨strL "https://acme.gorgias.com/att/1", strL "doc.pdf", 5,
           strL "application/pdf"⟩).bodyHtml = true :=
  claim10_no_field_validation
    ⟨strL "acme", strL "user", strL "key", strL "b2b@acme.com"⟩
    ⟨.ok ⟨strL "https://acme.gorgias.com/att/1", strL "doc.pdf", 5,
          strL "application/pdf"⟩, .ok ⟨42⟩⟩
    ⟨strL "POST", some (multipartContentType (strL "BOUND")),
      encodeMultipart (strL "BOUND")
        [filePart (strL "doc.pdf") (strL "application/pdf") (strL "HELLO")]⟩
    ⟨[], some ⟨strL "doc.pdf", latin1Bytes (strL "HELLO\r\n"), strL "application/pdf"⟩⟩
    ⟨strL "doc.pdf", latin1Bytes (strL "HELLO\r\n"), strL "application/pdf"⟩
    ⟨strL "https://acme.gorgias.com/att/1", strL "doc.pdf", 5,
     strL "application/pdf"⟩
    ⟨42⟩
    rfl rfl rfl rfl rfl rfl rfl rfl rfl

end B2BForm
